import Mathlib

/-!
Verification of `src/get-filter-permissions.py` (Jira filter permissions
extractor) against its specification.

The program is a single-file API-client-to-report pipeline:
`get_jira_filters` paginates the filter-search endpoint, `fetch_filter_details`
retrieves one filter's detail record, `format_permissions` flattens a list of
permission grants into a string, `save_filters_to_csv` writes the report, and
`main` orchestrates the run.

Shallow embedding conventions:
- A filter summary is represented by its `id` (a `Nat`); the listing endpoint's
  `values` field is a list of such ids.
- HTTP responses are explicit data: for the listing loop, the server is a
  finite list of responses consumed one per request (the i-th response answers
  the i-th request); for detail fetches, the server is a function from filter
  id to response.
- Missing JSON keys are `Option.none`; a Python `KeyError` on a dict index is
  an `Except.error` carrying the missing key's name.
- Logging calls do not affect data flow, except that we record in the listing
  result whether `logging.error` was invoked (`errLogged`), which one claim
  refers to.
-/

/-- One HTTP response of the paginated `filter/search` endpoint, as consumed by
`get_jira_filters`: a status code, the optional `values` field (absent key =
`none`; a filter summary is represented by its id), and the optional `isLast`
field (absent key = `none`, which the code reads via `data.get('isLast', True)`). -/
structure ListResponse where
  status : Nat
  values : Option (List Nat)
  isLast : Option Bool
deriving DecidableEq, Repr

/-- Result of the listing loop: the accumulated filter summaries, the sequence
of `startAt` offsets at which requests were issued, and whether any
`logging.error` line was emitted (non-200 status or missing `values`). -/
structure ListResult where
  filters : List Nat
  offsets : List Nat
  errLogged : Bool
deriving DecidableEq, Repr

/-- The `while not is_last` loop of `get_jira_filters`, lines 30-49 of the
source, started at offset `s` (`start_at`). Each iteration requests the next
response in the list; a non-200 status breaks with an error log, a missing
`values` key breaks with an error log, otherwise `values` is appended and the
loop continues at `s + 50` unless `data.get('isLast', True)` is true. The
`[]` case (server list exhausted) is a modelling artifact never reached by
the theorems below, which all pin down the page at which the loop stops. -/
def runList : List ListResponse → Nat → ListResult
  | [], _ => ⟨[], [], false⟩
  | r :: rest, s =>
    if r.status = 200 then
      match r.values with
      | some vs =>
        if r.isLast.getD true then ⟨vs, [s], false⟩
        else
          let t := runList rest (s + 50)
          ⟨vs ++ t.filters, s :: t.offsets, t.errLogged⟩
      | none => ⟨[], [s], true⟩
    else ⟨[], [s], true⟩

/-- `get_jira_filters` (lines 9-51): runs the pagination loop from
`start_at = 0`. -/
def get_jira_filters (pages : List ListResponse) : ListResult :=
  runList pages 0

/-- A well-formed non-final page: status 200, a `values` list present, and
`isLast` present and false. -/
def midPage (vs : List Nat) : ListResponse :=
  ⟨200, some vs, some false⟩

/-- A well-formed final page: status 200, a `values` list present, and
`isLast` present and true. -/
def lastPage (vs : List Nat) : ListResponse :=
  ⟨200, some vs, some true⟩

/-- The offsets `s, s + 50, s + 100, ...` (`n` of them): the `startAt` values
of `n` consecutive requests starting at `s`. -/
def offsetsFrom (s : Nat) : Nat → List Nat
  | 0 => []
  | n + 1 => s :: offsetsFrom (s + 50) n

/-- The nested object of a `user` grant, as read by
`perm['user']['displayName']`: the `displayName` key may be absent. -/
structure UserObj where
  displayName : Option String
deriving DecidableEq, Repr

/-- A nested object read via its `name` key (`perm['group']['name']`,
`perm['projectRole']['name']`): the key may be absent. -/
structure Named where
  name : Option String
deriving DecidableEq, Repr

/-- One permission-grant record as `format_permissions` reads it: the optional
`type` tag (`perm.get('type')`) and the three optional nested payload keys.
Each `none` is an absent dict key. -/
structure Grant where
  type : Option String
  user : Option UserObj
  group : Option Named
  projectRole : Option Named
deriving DecidableEq, Repr

/-- The body of the `for perm in permissions` loop of `format_permissions`
(lines 85-91): the contribution of one grant. Returns `ok none` when the grant
contributes nothing (unrecognized or missing `type`), `ok (some s)` for the
formatted contribution, and `error k` when the Python code would raise
`KeyError(k)` on a missing nested key. -/
def formatGrant (perm : Grant) : Except String (Option String) :=
  if perm.type = some "user" then
    match perm.user with
    | none => .error "user"
    | some u =>
      match u.displayName with
      | none => .error "displayName"
      | some d => .ok (some d)
  else if perm.type = some "group" then
    match perm.group with
    | none => .error "group"
    | some g =>
      match g.name with
      | none => .error "name"
      | some n => .ok (some ("Group: " ++ n))
  else if perm.type = some "projectRole" then
    match perm.projectRole with
    | none => .error "projectRole"
    | some g =>
      match g.name with
      | none => .error "name"
      | some n => .ok (some ("Project Role: " ++ n))
  else .ok none

/-- The accumulation loop of `format_permissions`: the list
`formatted_permissions` built in input order, stopping at the first grant on
which the Python code raises. -/
def formatPermissionsList : List Grant → Except String (List String)
  | [] => .ok []
  | p :: ps =>
    match formatGrant p with
    | .error e => .error e
    | .ok none => formatPermissionsList ps
    | .ok (some s) => (formatPermissionsList ps).map (fun rest => s :: rest)

/-- `format_permissions` (lines 76-93): `", ".join(formatted_permissions)`,
or the propagated `KeyError`. -/
def format_permissions (permissions : List Grant) : Except String String :=
  (formatPermissionsList permissions).map (String.intercalate ", ")

/-- A permission grant as the spec's data model describes it: a tagged union
over user/group/projectRole variants each carrying a display name, plus a
catch-all for any other (or missing) `type` tag. -/
inductive GrantSpec where
  | user (displayName : String)
  | group (name : String)
  | projectRole (name : String)
  | other (t : Option String)
deriving DecidableEq, Repr

/-- The JSON record a `GrantSpec` denotes: the tag together with exactly its
own payload key. -/
def GrantSpec.toGrant : GrantSpec → Grant
  | .user d => ⟨some "user", some ⟨some d⟩, none, none⟩
  | .group n => ⟨some "group", none, some ⟨some n⟩, none⟩
  | .projectRole n => ⟨some "projectRole", none, none, some ⟨some n⟩⟩
  | .other t => ⟨t, none, none, none⟩

/-- The contribution each grant variant should make to the output, in the
spec's words: display name for `user`, `"Group: "` plus name for `group`,
`"Project Role: "` plus name for `projectRole`, nothing otherwise. -/
def GrantSpec.contribution : GrantSpec → Option String
  | .user d => some d
  | .group n => some ("Group: " ++ n)
  | .projectRole n => some ("Project Role: " ++ n)
  | .other _ => none

/-- An `other` variant genuinely is an unrecognized tag: its `type` string is
none of the three recognized ones (otherwise it would denote a malformed
recognized grant, the case one claim treats separately). -/
def GrantSpec.tagOk : GrantSpec → Bool
  | .other t => !(t == some "user" || t == some "group" || t == some "projectRole")
  | _ => true

/-- The `owner` object of a filter detail record, read via
`filter['owner']['displayName']`. -/
structure Owner where
  displayName : String
deriving DecidableEq, Repr

/-- One filter detail record as `save_filters_to_csv` reads it: the keys it
indexes directly (`name`, `owner`, `sharePermissions`, `editPermissions`,
`isWritable`) and the optional `approximateLastUsed` key, which it reads via
`filter.get('approximateLastUsed', None)`. -/
structure FilterDetail where
  name : String
  owner : Owner
  sharePermissions : List Grant
  editPermissions : List Grant
  isWritable : Bool
  approximateLastUsed : Option String
deriving DecidableEq, Repr

/-- The HTTP response of one `filter/{id}` detail request: a status code and
the decoded body. -/
structure DetailResponse where
  status : Nat
  body : FilterDetail
deriving Repr

/-- `fetch_filter_details` (lines 53-74), applied to the response the server
returns for the requested id: on a non-200 status it logs the failure and
returns `None`; otherwise it returns the decoded body. -/
def fetch_filter_details (response : DetailResponse) : Option FilterDetail :=
  if response.status = 200 then some response.body else none

/-- The detail-fetch orchestration of `main` (lines 154-161): one
`fetch_filter_details` call per listed filter id against the server, keeping
only the non-`None` results. The thread pool's completion order is modelled as
submission order; the claims settled below concern row counts and which ids
contribute rows, which are unaffected by the ordering. -/
def collect_details (server : Nat → DetailResponse) (ids : List Nat) : List FilterDetail :=
  ids.filterMap (fun i => fetch_filter_details (server i))

/-- One row of the report, the dict built per filter in `save_filters_to_csv`
(lines 110-117). -/
structure Row where
  filterName : String
  owner : String
  sharePermissions : String
  editPermissions : String
  isWritable : Bool
  approximateLastUsed : Option String
deriving DecidableEq, Repr

/-- Minimal CSV field quoting as `pandas.DataFrame.to_csv` performs it
(csv.QUOTE_MINIMAL): a field containing a comma, double quote, or line break
is wrapped in double quotes with inner quotes doubled; any other field is
written verbatim. -/
def csvQuote (s : String) : String :=
  if s.contains ',' || s.contains '"' || s.contains '\n' || s.contains '\r' then
    "\"" ++ (s.replace "\"" "\"\"") ++ "\""
  else s

/-- The six serialized cells of one row, in the dict's insertion order.
`to_csv` writes a Python bool as `True`/`False` and a missing value (`None`)
as the empty cell (its default `na_rep` is the empty string). -/
def renderCells (r : Row) : List String :=
  [csvQuote r.filterName, csvQuote r.owner, csvQuote r.sharePermissions,
   csvQuote r.editPermissions, if r.isWritable then "True" else "False",
   match r.approximateLastUsed with
   | none => ""
   | some s => csvQuote s]

/-- The header line `to_csv` writes: the dict keys in insertion order. -/
def csvHeader : String :=
  "Filter name,Owner,Share Permissions,Edit Permissions,Is Writable,Approximate Last Used"

/-- The file content `df.to_csv(filename, index=False)` produces: for a
non-empty row list, the header line then one line per row; for an empty row
list the DataFrame has no columns and pandas writes a single empty line. -/
def renderCsv (rows : List Row) : String :=
  if rows = [] then "\n"
  else csvHeader ++ "\n"
    ++ String.join (rows.map (fun r => String.intercalate "," (renderCells r) ++ "\n"))

/-- The per-filter dict construction of `save_filters_to_csv` (lines 110-117):
both `format_permissions` calls may raise, in source order (share before
edit); otherwise the row is built from the record's fields. -/
def make_row (f : FilterDetail) : Except String Row :=
  match format_permissions f.sharePermissions with
  | .error e => .error e
  | .ok share =>
    match format_permissions f.editPermissions with
    | .error e => .error e
    | .ok edit =>
      .ok ⟨f.name, f.owner.displayName, share, edit, f.isWritable, f.approximateLastUsed⟩

/-- Outcome of `save_filters_to_csv` when it does not raise: either the early
return with the "No filter details to save." warning and no write, or a file
written with the given content. -/
inductive SaveResult where
  | warned
  | written (content : String)
deriving DecidableEq, Repr

/-- `save_filters_to_csv` (lines 95-122): if the input list is empty
(`if not filter_details`), log a warning and return without writing; otherwise
drop `None` entries, build one row per remaining record (propagating any
`KeyError` raised while formatting permissions), and write the rendered table. -/
def save_filters_to_csv (filter_details : List (Option FilterDetail)) :
    Except String SaveResult :=
  if filter_details.isEmpty then .ok .warned
  else ((filter_details.filterMap id).mapM make_row).map
    (fun rows => .written (renderCsv rows))

/-- Outcome of a `main` run (lines 124-164) after the listing phase: either
the early return when no filters were listed (warning logged, no file, no
confirmation printed), or completion of the save step, after which the
`print(f"Filter details saved to {filename}")` statement runs. -/
inductive MainResult where
  | noFilters
  | completed (save : SaveResult)
deriving DecidableEq, Repr

/-- Whether the run printed the final confirmation line naming the output
file: `main` reaches the `print` exactly when it completes the save step. -/
def confirmationPrinted : MainResult → Bool
  | .noFilters => false
  | .completed _ => true

/-- Whether the run actually wrote the output file. -/
def fileWritten : MainResult → Bool
  | .completed (.written _) => true
  | _ => false

/-- The data flow of `main` (lines 143-164) after the credential prompt: list
filters; if none were listed, return early; otherwise fetch details for every
listed id, save, and print the confirmation. An uncaught `KeyError` while
building rows aborts the run as `Except.error`. -/
def main_run (pages : List ListResponse) (server : Nat → DetailResponse) :
    Except String MainResult :=
  if (get_jira_filters pages).filters.isEmpty then .ok .noFilters
  else
    (save_filters_to_csv
      ((collect_details server (get_jira_filters pages).filters).map some)).map
      .completed

/-- A grant whose recognized `type` tag is not accompanied by its nested
payload: the dict lookups of lines 87, 89 or 91 fail on it (`perm['user']`
missing or `perm['user']['displayName']` missing, and likewise for the other
two variants). -/
def BadGrant (p : Grant) : Prop :=
  (p.type = some "user" ∧ p.user.bind UserObj.displayName = none)
  ∨ (p.type = some "group" ∧ p.group.bind Named.name = none)
  ∨ (p.type = some "projectRole" ∧ p.projectRole.bind Named.name = none)

instance : DecidablePred BadGrant := fun p => by
  unfold BadGrant
  infer_instance

def detailServerFailTwo : Nat → DetailResponse := fun i =>
  if i ≤ 3 then ⟨200, ⟨"Team filter", ⟨"Olivia"⟩, [], [], true, none⟩⟩
  else ⟨404, ⟨"Team filter", ⟨"Olivia"⟩, [], [], true, none⟩⟩

def failingDetailServer : Nat → DetailResponse := fun _ =>
  ⟨404, ⟨"Team filter", ⟨"Olivia"⟩, [], [], true, none⟩⟩

theorem offsetsFrom_append_last (s n : Nat) :
    offsetsFrom s n ++ [s + 50 * n] = offsetsFrom s (n + 1) := by
  induction n generalizing s with
  | zero => simp [offsetsFrom]
  | succ n ih =>
    have h1 : s + 50 * (n + 1) = (s + 50) + 50 * n := by ring
    simp only [offsetsFrom, List.cons_append, h1, ih]

/-- Running the loop on a block of well-formed non-final pages followed by any
tail: every block page's values are accumulated in order, one request per page
at offsets 50 apart, and the loop then continues into the tail. -/
theorem runList_midPages (vss : List (List Nat)) (rest : List ListResponse) (s : Nat) :
    runList (vss.map midPage ++ rest) s
      = ⟨vss.flatten ++ (runList rest (s + 50 * vss.length)).filters,
         offsetsFrom s vss.length ++ (runList rest (s + 50 * vss.length)).offsets,
         (runList rest (s + 50 * vss.length)).errLogged⟩ := by
  induction vss generalizing s with
  | nil => simp [offsetsFrom]
  | cons vs vss ih =>
    have h1 : (s + 50) + 50 * vss.length = s + 50 * (vss.length + 1) := by ring
    have hstep : runList (List.map midPage (vs :: vss) ++ rest) s
        = ⟨vs ++ (runList (List.map midPage vss ++ rest) (s + 50)).filters,
           s :: (runList (List.map midPage vss ++ rest) (s + 50)).offsets,
           (runList (List.map midPage vss ++ rest) (s + 50)).errLogged⟩ := rfl
    rw [hstep, ih, h1]
    simp [offsetsFrom, List.append_assoc]

theorem formatGrant_toGrant (g : GrantSpec) (h : g.tagOk = true) :
    formatGrant g.toGrant = .ok g.contribution := by
  cases g with
  | user d => rfl
  | group n => rfl
  | projectRole n => rfl
  | other t =>
    simp only [GrantSpec.tagOk, Bool.not_eq_true', Bool.or_eq_false_iff, beq_eq_false_iff_ne,
      ne_eq] at h
    obtain ⟨⟨h1, h2⟩, h3⟩ := h
    simp [formatGrant, GrantSpec.toGrant, GrantSpec.contribution, h1, h2, h3]

theorem formatPermissionsList_toGrant (gs : List GrantSpec)
    (h : ∀ g ∈ gs, g.tagOk = true) :
    formatPermissionsList (gs.map GrantSpec.toGrant)
      = .ok (gs.filterMap GrantSpec.contribution) := by
  induction gs with
  | nil => rfl
  | cons g gs ih =>
    have hg := formatGrant_toGrant g (h g (by simp))
    have ih2 := ih (fun a ha => h a (by simp [ha]))
    cases hc : g.contribution with
    | none =>
      simp only [List.map_cons, formatPermissionsList, hg, hc, ih2, List.filterMap_cons, hc]
    | some s =>
      simp only [List.map_cons, formatPermissionsList, hg, hc, ih2, List.filterMap_cons,
        Except.map]

theorem runList_wellformed (vss : List (List Nat)) (last : List Nat)
    (junk : List ListResponse) (s : Nat) :
    runList (vss.map midPage ++ lastPage last :: junk) s
      = ⟨vss.flatten ++ last, offsetsFrom s (vss.length + 1), false⟩ := by
  have htail : runList (lastPage last :: junk) (s + 50 * vss.length)
      = ⟨last, [s + 50 * vss.length], false⟩ := rfl
  rw [runList_midPages, htail, ← offsetsFrom_append_last]

/-- C1: on a well-formed response sequence — pages with status 200, a `values`
list and an `isLast` flag, the flag false on every page before the final one
and true on it — `get_jira_filters` returns exactly the concatenation of the
pages' `values` in page order, requests offsets `0, 50, 100, ...` (one per
page), and stops exactly at the first `isLast = true` page: whatever follows
(`junk`) is never requested. -/
theorem get_jira_filters_concats_pages_until_isLast (vss : List (List Nat))
    (last : List Nat) (junk : List ListResponse) :
    get_jira_filters (vss.map midPage ++ lastPage last :: junk)
      = ⟨vss.flatten ++ last, offsetsFrom 0 (vss.length + 1), false⟩ :=
  runList_wellformed vss last junk 0

theorem runList_stops_bad (vss : List (List Nat)) (bad : ListResponse)
    (junk : List ListResponse) (s : Nat)
    (h : bad.status ≠ 200 ∨ bad.values = none) :
    runList (vss.map midPage ++ bad :: junk) s
      = ⟨vss.flatten, offsetsFrom s (vss.length + 1), true⟩ := by
  have htail : runList (bad :: junk) (s + 50 * vss.length)
      = ⟨[], [s + 50 * vss.length], true⟩ := by
    rcases h with h | h
    · simp [runList, h]
    · by_cases hs : bad.status = 200
      · simp [runList, hs, h]
      · simp [runList, hs]
  rw [runList_midPages, htail, ← offsetsFrom_append_last]
  simp

/-- C3: when some page of the listing returns a non-200 status or a 200
response lacking the `values` field, `get_jira_filters` stops at that page and
returns exactly the summaries accumulated from the prior successful pages —
nothing from the failing page (whose `values`, if any, are ignored) and no
page after it; the model is total, so no exception is raised, and the failure
is logged (`errLogged = true`). -/
theorem get_jira_filters_partial_on_error (vss : List (List Nat))
    (bad : ListResponse) (junk : List ListResponse)
    (h : bad.status ≠ 200 ∨ bad.values = none) :
    get_jira_filters (vss.map midPage ++ bad :: junk)
      = ⟨vss.flatten, offsetsFrom 0 (vss.length + 1), true⟩ :=
  runList_stops_bad vss bad junk 0 h

theorem get_jira_filters_partial_on_error_witness :
    get_jira_filters (List.map midPage [[1]]
        ++ (⟨500, some [2], some false⟩ : ListResponse) :: [])
      = ⟨[1], [0, 50], true⟩ :=
  get_jira_filters_partial_on_error [[1]] ⟨500, some [2], some false⟩ []
    (Or.inl (by decide))

/-- C4, counterexample: a 200 page with an empty `values` list and
`isLast = false` does not terminate the loop. On this two-page input the loop
requests a second page (offsets `[0, 50]`, not `[0]`) and returns that page's
values. -/
theorem get_jira_filters_empty_page_not_last_cex :
    get_jira_filters [⟨200, some [], some false⟩, ⟨200, some [7], some true⟩]
      = ⟨[7], [0, 50], false⟩
    ∧ (get_jira_filters [⟨200, some [], some false⟩,
        ⟨200, some [7], some true⟩]).offsets ≠ [0] :=
  ⟨rfl, by decide⟩

/-- C4, amended: termination of the pagination loop is controlled only by the
`isLast` flag (and by error responses), never by emptiness of `values`: a 200
page with `isLast = false` always continues to the next offset — whatever its
`values` list, including the empty one — and a 200 page with `isLast = true`
always stops. -/
theorem runList_continues_iff_isLast_false (vs : List Nat)
    (rest : List ListResponse) (s : Nat) :
    runList ((⟨200, some vs, some false⟩ : ListResponse) :: rest) s
      = ⟨vs ++ (runList rest (s + 50)).filters, s :: (runList rest (s + 50)).offsets,
         (runList rest (s + 50)).errLogged⟩
    ∧ runList ((⟨200, some vs, some true⟩ : ListResponse) :: rest) s
      = ⟨vs, [s], false⟩ :=
  ⟨rfl, rfl⟩

/-- C9: a 200 response carrying `values` but lacking the `isLast` field is
treated as the last page — `data.get('isLast', True)` defaults to true — so
its values are the final contribution, no further page is requested (the tail
`rest` is never consumed, the last offset requested is that page's), and no
error is logged (`errLogged = false`). -/
theorem get_jira_filters_missing_isLast_treated_last (vss : List (List Nat))
    (vs : List Nat) (rest : List ListResponse) :
    get_jira_filters (vss.map midPage ++ (⟨200, some vs, none⟩ : ListResponse) :: rest)
      = ⟨vss.flatten ++ vs, offsetsFrom 0 (vss.length + 1), false⟩ := by
  have htail : runList ((⟨200, some vs, none⟩ : ListResponse) :: rest)
      (0 + 50 * vss.length) = ⟨vs, [0 + 50 * vss.length], false⟩ := rfl
  rw [get_jira_filters, runList_midPages, htail, ← offsetsFrom_append_last]

/-- C2: on any list of permission grants of the spec's data model — each a
`user`, `group` or `projectRole` variant carrying its display name, or any
other (or missing) `type` tag — `format_permissions` returns (never raises)
the comma-space-joined concatenation, in input order, of the display name for
each `user` grant, `"Group: "` plus the name for each `group` grant,
`"Project Role: "` plus the name for each `projectRole` grant, and nothing for
the rest; the empty list and a list of only unknown-type grants both yield the
empty string. -/
theorem format_permissions_formats_grants_in_order (gs : List GrantSpec)
    (h : ∀ g ∈ gs, g.tagOk = true) :
    format_permissions (gs.map GrantSpec.toGrant)
      = .ok (String.intercalate ", " (gs.filterMap GrantSpec.contribution)) := by
  rw [format_permissions, formatPermissionsList_toGrant gs h]
  rfl

theorem format_permissions_formats_grants_in_order_witness :
    format_permissions (List.map GrantSpec.toGrant
        [GrantSpec.user "Alice", GrantSpec.group "Eng", GrantSpec.other (some "unknown")])
      = .ok (String.intercalate ", " (List.filterMap GrantSpec.contribution
          [GrantSpec.user "Alice", GrantSpec.group "Eng", GrantSpec.other (some "unknown")]))
    ∧ format_permissions (List.map GrantSpec.toGrant
        ([] : List GrantSpec)) = .ok ""
    ∧ format_permissions (List.map GrantSpec.toGrant
        [GrantSpec.other (some "unknown")]) = .ok "" :=
  ⟨format_permissions_formats_grants_in_order _ (by decide),
   (format_permissions_formats_grants_in_order [] (by decide)).trans (by rfl),
   (format_permissions_formats_grants_in_order _ (by decide)).trans (by rfl)⟩

theorem formatGrant_error_of_bad (p : Grant) (h : BadGrant p) :
    ∃ e, formatGrant p = .error e := by
  rcases h with ⟨ht, hb⟩ | ⟨ht, hb⟩ | ⟨ht, hb⟩
  · cases hu : p.user with
    | none => exact ⟨"user", by simp [formatGrant, ht, hu]⟩
    | some u =>
      rw [hu] at hb
      have hb2 : u.displayName = none := hb
      exact ⟨"displayName", by simp [formatGrant, ht, hu, hb2]⟩
  · cases hg : p.group with
    | none => exact ⟨"group", by simp [formatGrant, ht, hg]⟩
    | some g =>
      rw [hg] at hb
      have hb2 : g.name = none := hb
      exact ⟨"name", by simp [formatGrant, ht, hg, hb2]⟩
  · cases hg : p.projectRole with
    | none => exact ⟨"projectRole", by simp [formatGrant, ht, hg]⟩
    | some g =>
      rw [hg] at hb
      have hb2 : g.name = none := hb
      exact ⟨"name", by simp [formatGrant, ht, hg, hb2]⟩

/-- C10: `format_permissions` is partial. Whenever the input contains a grant
whose `type` is `user`, `group` or `projectRole` but which lacks the matching
nested payload (`user.displayName`, `group.name` or `projectRole.name`), the
dict lookup fails and the function raises a `KeyError` instead of returning a
string. -/
theorem format_permissions_errors_on_missing_payload (perms : List Grant)
    (h : ∃ p ∈ perms, BadGrant p) :
    ∃ e, format_permissions perms = .error e := by
  suffices hs : ∃ e, formatPermissionsList perms = .error e by
    obtain ⟨e, he⟩ := hs
    exact ⟨e, by simp [format_permissions, he, Except.map]⟩
  induction perms with
  | nil => simp at h
  | cons p ps ih =>
    rcases h with ⟨q, hq, hbad⟩
    rcases List.mem_cons.mp hq with rfl | hmem
    · obtain ⟨e, he⟩ := formatGrant_error_of_bad q hbad
      exact ⟨e, by simp [formatPermissionsList, he]⟩
    · cases hf : formatGrant p with
      | error e => exact ⟨e, by simp [formatPermissionsList, hf]⟩
      | ok o =>
        obtain ⟨e, he⟩ := ih ⟨q, hmem, hbad⟩
        cases o with
        | none => exact ⟨e, by simp [formatPermissionsList, hf, he]⟩
        | some s => exact ⟨e, by simp [formatPermissionsList, hf, he, Except.map]⟩

theorem format_permissions_errors_on_missing_payload_witness :
    ∃ e, format_permissions
        [({type := some "user", user := none, group := none, projectRole := none} : Grant)]
      = .error e :=
  format_permissions_errors_on_missing_payload _
    ⟨_, List.mem_singleton_self _, Or.inl ⟨rfl, rfl⟩⟩

theorem collect_details_eq (server : Nat → DetailResponse) (ids : List Nat) :
    collect_details server ids
      = (ids.filter (fun i => (server i).status = 200)).map (fun i => (server i).body) := by
  induction ids with
  | nil => rfl
  | cons i ids ih =>
    by_cases hs : (server i).status = 200
    · simp [collect_details, fetch_filter_details, hs, List.filter_cons] at ih ⊢
      exact ih
    · simp [collect_details, fetch_filter_details, hs, List.filter_cons] at ih ⊢
      exact ih

theorem length_filter_partition {α : Type} (p : α → Bool) (l : List α) :
    (l.filter p).length + (l.filter (fun a => !(p a))).length = l.length := by
  induction l with
  | nil => rfl
  | cons a l ih =>
    by_cases h : p a = true <;> simp [List.filter_cons, h] <;> omega

/-- C6: a non-200 detail fetch yields `none` (`fetch_filter_details` logs and
returns instead of raising) and the orchestrator keeps only non-`none`
results, so the collected report rows are exactly the bodies of the
identifiers whose fetch succeeded; in particular with 5 identifiers of which 2
fail, exactly 3 rows remain and none comes from a failed identifier. -/
theorem collect_details_drops_failed_fetches (server : Nat → DetailResponse)
    (ids : List Nat) (h5 : ids.length = 5)
    (h2 : (ids.filter (fun i => ¬ (server i).status = 200)).length = 2) :
    (collect_details server ids).length = 3
    ∧ collect_details server ids
        = (ids.filter (fun i => (server i).status = 200)).map
            (fun i => (server i).body) := by
  have he := collect_details_eq server ids
  refine ⟨?_, he⟩
  rw [he, List.length_map]
  have hp := length_filter_partition (fun i => decide ((server i).status = 200)) ids
  simp only [decide_not] at h2
  omega

theorem collect_details_drops_failed_fetches_witness :
    (collect_details detailServerFailTwo [1, 2, 3, 4, 5]).length = 3
    ∧ collect_details detailServerFailTwo [1, 2, 3, 4, 5]
        = (List.filter (fun i => (detailServerFailTwo i).status = 200) [1, 2, 3, 4, 5]).map
            (fun i => (detailServerFailTwo i).body) :=
  collect_details_drops_failed_fetches detailServerFailTwo [1, 2, 3, 4, 5]
    (by rfl) (by decide)

/-- C7, counterexample: the emptiness check `if not filter_details` runs on
the input list before `None` entries are discarded, so for the input `[None]`
— whose null-filtered remainder is empty — a file is still written (the
rendering of an empty table), not the warning-and-no-write the claim states. -/
theorem save_filters_to_csv_null_only_writes_cex :
    save_filters_to_csv [none] = .ok (.written "\n")
    ∧ (Except.ok (SaveResult.written "\n") : Except String SaveResult)
        ≠ .ok .warned :=
  ⟨rfl, fun h => SaveResult.noConfusion (Except.ok.inj h)⟩

/-- C7, amended: the writer's emptiness check precedes null filtering. An
empty input list yields the warning and no write; a non-empty input whose
entries are all null passes the check, and the empty table is rendered and
written. -/
theorem save_filters_to_csv_empty_input_check (fds : List (Option FilterDetail)) :
    (fds = [] → save_filters_to_csv fds = .ok .warned)
    ∧ (fds ≠ [] → fds.filterMap id = []
        → save_filters_to_csv fds = .ok (.written "\n")) := by
  constructor
  · rintro rfl
    rfl
  · intro hne hf
    rw [save_filters_to_csv, if_neg (by simp [List.isEmpty_iff, hne]), hf]
    rfl

theorem save_filters_to_csv_empty_input_check_witness :
    (([none] : List (Option FilterDetail)) = []
        → save_filters_to_csv [none] = .ok .warned)
    ∧ (([none] : List (Option FilterDetail)) ≠ []
        → ([none] : List (Option FilterDetail)).filterMap id = []
        → save_filters_to_csv [none] = .ok (.written "\n")) :=
  save_filters_to_csv_empty_input_check [none]

/-- C8: a filter detail record lacking the `approximateLastUsed` key produces
a row whose Approximate Last Used cell — the last of the six — renders as the
empty string, not as the literal `"None"` or `"null"` (pandas writes a `None`
value as an empty cell). -/
theorem report_row_renders_absent_last_used_empty (f : FilterDetail) (r : Row)
    (hf : f.approximateLastUsed = none) (hr : make_row f = .ok r) :
    (renderCells r).getLast? = some ""
    ∧ (renderCells r).getLast? ≠ some "None"
    ∧ (renderCells r).getLast? ≠ some "null" := by
  cases h1 : format_permissions f.sharePermissions with
  | error e => simp [make_row, h1] at hr
  | ok share =>
    cases h2 : format_permissions f.editPermissions with
    | error e => simp [make_row, h1, h2] at hr
    | ok edit =>
      simp only [make_row, h1, h2, Except.ok.injEq] at hr
      subst hr
      rw [hf]
      have hval : (renderCells
          ⟨f.name, f.owner.displayName, share, edit, f.isWritable, none⟩).getLast?
          = some "" := rfl
      rw [hval]
      exact ⟨rfl, by decide, by decide⟩

theorem report_row_renders_absent_last_used_empty_witness :
    (renderCells ⟨"Team filter", "Olivia", "", "", true, none⟩).getLast? = some ""
    ∧ (renderCells ⟨"Team filter", "Olivia", "", "", true, none⟩).getLast? ≠ some "None"
    ∧ (renderCells ⟨"Team filter", "Olivia", "", "", true, none⟩).getLast? ≠ some "null" :=
  report_row_renders_absent_last_used_empty
    ⟨"Team filter", ⟨"Olivia"⟩, [], [], true, none⟩
    ⟨"Team filter", "Olivia", "", "", true, none⟩ rfl rfl

/-- C5, counterexample: the confirmation `print` follows `save_filters_to_csv`
unconditionally. In a run where one filter is listed but its detail fetch
fails, the detail set is empty after filtering, no file is written
(`SaveResult.warned`), yet the confirmation line naming the output file is
still printed. -/
theorem main_run_confirmation_without_file_cex :
    main_run [lastPage [1]] failingDetailServer = .ok (.completed .warned)
    ∧ confirmationPrinted (.completed .warned) = true
    ∧ fileWritten (.completed .warned) = false :=
  ⟨rfl, rfl, rfl⟩

/-- C5, amended: the confirmation line is printed whenever `main` reaches and
completes the save step — that is, whenever the listing was non-empty and row
building raised no exception — regardless of whether a file was written; when
the save step took the warning path, the confirmation is printed even though
no file was produced. (On the early no-filters return the confirmation is not
printed: `confirmationPrinted .noFilters = false` by definition.) -/
theorem main_run_confirmation_follows_save (pages : List ListResponse)
    (server : Nat → DetailResponse) (sv : SaveResult)
    (hne : (get_jira_filters pages).filters.isEmpty = false)
    (hsv : save_filters_to_csv
        ((collect_details server (get_jira_filters pages).filters).map some)
      = .ok sv) :
    main_run pages server = .ok (.completed sv)
    ∧ confirmationPrinted (.completed sv) = true
    ∧ (sv = .warned → fileWritten (.completed sv) = false) := by
  refine ⟨?_, rfl, ?_⟩
  · unfold main_run
    rw [if_neg (by simp [hne]), hsv]
    rfl
  · rintro rfl
    rfl

theorem main_run_confirmation_follows_save_witness :
    main_run [lastPage [2]] failingDetailServer = .ok (.completed .warned)
    ∧ confirmationPrinted (.completed .warned) = true
    ∧ (SaveResult.warned = .warned → fileWritten (.completed .warned) = false) :=
  main_run_confirmation_follows_save [lastPage [2]] failingDetailServer .warned rfl rfl
